import Mathlib

/-!
Verification of the SVG chart-rendering subsystem of the mldb repository
(`apps/chart/charts.py`), shallowly embedded in Lean 4.

Conventions of the embedding:
* Python numbers are modelled as rationals (`ℚ`); all the arithmetic the
  verified claims exercise is exact, so no floating-point rounding is lost.
* Angles are represented by their coefficient of π: the Python value
  `math.pi * 2 * x` is modelled as the rational `2 * x`.  The comparison
  `angle_delta > math.pi` of the source is therefore modelled as
  `1 < deltaCoeff`, which is equivalent because π > 0.
* Python code that can raise is modelled in `Except PyErr`; a raw float
  division `a / b` of the source becomes `pydiv a b`, which fails with
  `PyErr.zeroDivisionError` exactly when the divisor is zero, as Python does.
* SVG string output is modelled structurally where the claims are about
  geometry (lists of slices / points / rectangles), and literally where the
  claims are about the produced markup (`MetaData.wrap_link`).
-/

namespace Charts

/-- Exceptions raised by the modelled Python code paths. -/
inductive PyErr where
  | typeError
  | zeroDivisionError
deriving DecidableEq

/-- Python float division: `a / b` raises `ZeroDivisionError` when `b == 0`. -/
def pydiv (a b : ℚ) : Except PyErr ℚ :=
  if b = 0 then .error .zeroDivisionError else .ok (a / b)

/-- Error-propagating map over a list, mirroring a Python `for` loop that can
raise: the first raising element aborts the whole loop. -/
def tryMap (f : α → Except PyErr β) : List α → Except PyErr (List β)
  | [] => .ok []
  | x :: xs =>
    match f x with
    | .error e => .error e
    | .ok y =>
      match tryMap f xs with
      | .error e => .error e
      | .ok ys => .ok (y :: ys)

/-- `class MetaData`: extra information associated with chart data
(`label`, `id`, `link`, `extra` fields of the constructor). -/
structure MetaData where
  label : String
  id : String
  link : Option String
  extra : Option String
deriving DecidableEq

/-- The single-quote character, as a one-character string
(character code 39). -/
def sq : String := String.singleton (Char.ofNat 39)

/-- One step of `django.utils.html.escape`: the entity replacement for a
single character.  The source applies `.replace` for `&`, `<`, `>`, `"` and
the single quote in this order; since `&` is replaced first and the
introduced entities are never rewritten again, the chained replacement is
exactly this character-wise map. -/
def escapeChar (c : Char) : String :=
  if c = '&' then "&amp;"
  else if c = '<' then "&lt;"
  else if c = '>' then "&gt;"
  else if c = '"' then "&quot;"
  else if c = Char.ofNat 39 then "&#39;"
  else String.singleton c

/-- `django.utils.html.escape`, as used by `MetaData.wrap_link` and for
titles. -/
def htmlEscape (s : String) : String :=
  String.join (s.data.map escapeChar)

/-- Python truthiness of the `link` field: `None` and the empty string are
falsy, every other string is truthy. -/
def linkTruthy : Option String → Bool
  | none => false
  | some s => !(s == "")

/-- `MetaData.wrap_link(svg, xmlns="xlink")`: wraps the given SVG snippet
into a link.  Returns `svg` unchanged when `not self.link`; otherwise appends
a `:` to `xmlns` when it is nonempty and does not already end in `:`, and
produces the `"<a %shref='%s'>%s</a>" % (xmlns, escape(self.link), svg)`
string of the source. -/
def MetaData.wrap_link (md : MetaData) (svg : String) (xmlns : String) : String :=
  if linkTruthy md.link = false then svg
  else
    let x := if xmlns ≠ "" ∧ xmlns.back ≠ ':' then xmlns ++ ":" else xmlns
    "<a " ++ x ++ "href=" ++ sq ++ htmlEscape (md.link.getD "") ++ sq ++ ">"
      ++ svg ++ "</a>"

/-- `class DataPoint(MetaData)`: a data point in the graph, with a `value`. -/
structure DataPoint where
  meta : MetaData
  value : ℚ
deriving DecidableEq

/-- `DataPoint.normalized(max)`: percentage of the maximum, the source
expression `float(self.value) / max if max else 1`. -/
def DataPoint.normalized (p : DataPoint) (max : ℚ) : ℚ :=
  if max ≠ 0 then p.value / max else 1

/-- `class DataSet(MetaData)`: an ordered list of data points. -/
structure DataSet where
  meta : MetaData
  data : List DataPoint
deriving DecidableEq

/-- `DataSet.total()`: `sum(point.value for point in self.data)`. -/
def DataSet.total (ds : DataSet) : ℚ :=
  (ds.data.map DataPoint.value).sum

/-- `DataSet.max_value()`:
`max(point.value for point in self.data) if self.data else 0`. -/
def DataSet.max_value (ds : DataSet) : ℚ :=
  match ds.data with
  | [] => 0
  | p :: ps => (ps.map DataPoint.value).foldl max p.value

/-- `DataSet.append(point)`: the source body is exactly
`self.data.append(point)` — no validation of any kind is performed. -/
def DataSet.append (ds : DataSet) (p : DataPoint) : DataSet :=
  DataSet.mk ds.meta (ds.data ++ [p])

/-- `class DataMatrix`: a two-dimensional set of data with row and column
metadata.  Precondition from the source doc comment:
`len(rows) == len(values)` and every row of `values` has `len(columns)`
entries. -/
structure DataMatrix where
  rows : List MetaData
  columns : List MetaData
  values : List (List ℚ)
deriving DecidableEq

/-- The documented shape precondition of `DataMatrix.__init__`. -/
def DataMatrix.shapeInv (m : DataMatrix) : Prop :=
  m.values.length = m.rows.length ∧ ∀ rw ∈ m.values, rw.length = m.columns.length

instance (m : DataMatrix) : Decidable m.shapeInv := by
  unfold DataMatrix.shapeInv; infer_instance

/-- The `MatrixView` class hierarchy: `MatrixView` (records are matrix rows),
`TransposedMatrixView` (records are matrix columns),
`MatrixViewSingleRecord` (one `DataSet` as the only record) and
`MatrixViewSingleItem` (one `DataSet` as the only item), encoded as a closed
variant type. -/
inductive MatrixView where
  | rowV (m : DataMatrix)
  | transposedV (m : DataMatrix)
  | singleRecord (ds : DataSet)
  | singleItem (ds : DataSet)
deriving DecidableEq

/-- `records` property of each view variant. -/
def MatrixView.records : MatrixView → List MetaData
  | .rowV m => m.rows
  | .transposedV m => m.columns
  | .singleRecord ds => [ds.meta]
  | .singleItem ds => ds.data.map DataPoint.meta

/-- `items` property of each view variant. -/
def MatrixView.items : MatrixView → List MetaData
  | .rowV m => m.columns
  | .transposedV m => m.rows
  | .singleRecord ds => ds.data.map DataPoint.meta
  | .singleItem ds => [ds.meta]

/-- `__call__(record_id, item_id)` of each view variant; a Python
`IndexError` on an out-of-range subscript is modelled as `none`.
`MatrixView` reads `values[record_id][item_id]`, `TransposedMatrixView`
reads `values[item_id][record_id]`, and the single-dataset views read the
point value at the item (resp. record) index. -/
def MatrixView.valueAt : MatrixView → ℕ → ℕ → Option ℚ
  | .rowV m, r, i => (m.values.get? r).bind fun rw => rw.get? i
  | .transposedV m, r, i => (m.values.get? i).bind fun rw => rw.get? r
  | .singleRecord ds, _, i => (ds.data.get? i).map DataPoint.value
  | .singleItem ds, r, _ => (ds.data.get? r).map DataPoint.value

/-- Total-function variant of `valueAt`, defaulting to 0 out of range.  The
renderers only subscript in range (the shape invariant guarantees it), so
the default is never observed there. -/
def MatrixView.valAtD (v : MatrixView) (r i : ℕ) : ℚ :=
  (v.valueAt r i).getD 0

/-- The `transposed` property of each view variant: `MatrixView` ↔
`TransposedMatrixView` and `MatrixViewSingleRecord` ↔
`MatrixViewSingleItem`, always over the same underlying data. -/
def MatrixView.transposed : MatrixView → MatrixView
  | .rowV m => .transposedV m
  | .transposedV m => .rowV m
  | .singleRecord ds => .singleItem ds
  | .singleItem ds => .singleRecord ds

/-- `class SvgPoint`: SVG coordinates in user units. -/
structure SvgPoint where
  x : ℚ
  y : ℚ
deriving DecidableEq

/-- `class SvgRect`: SVG axis-aligned rectangle in user units. -/
structure SvgRect where
  x : ℚ
  y : ℚ
  width : ℚ
  height : ℚ
deriving DecidableEq

/-- The state built by `ChartBase.__init__`: the padded rectangle and the
`normalized` flag. -/
structure ChartBase where
  rect : SvgRect
  normalized : Bool
deriving DecidableEq

/-- Body of `ChartBase.__init__(rect, padding, normalized)`: the stored rect
is inset by `padding` on every side. -/
def mkChartBase (rect : SvgRect) (padding : ℚ) (normalized : Bool) : ChartBase :=
  ChartBase.mk
    (SvgRect.mk (rect.x + padding) (rect.y + padding)
      (rect.width - padding * 2) (rect.height - padding * 2))
    normalized

/-- `ChartBase.point_rel2abs(point)`: converts a relative point into an
absolute one; `y` is flipped (`rect.y + rect.height * (1 - point.y)`). -/
def ChartBase.point_rel2abs (c : ChartBase) (p : SvgPoint) : SvgPoint :=
  SvgPoint.mk (c.rect.x + c.rect.width * p.x)
    (c.rect.y + c.rect.height * (1 - p.y))

/-- `LineChartBase._value_point(percent, index, size)`: the relative x is
`0 if size < 2 else float(index) / (size - 1)`, the relative y is `percent`,
mapped through `point_rel2abs`. -/
def value_point (c : ChartBase) (percent : ℚ) (index size : ℕ) : SvgPoint :=
  c.point_rel2abs
    (SvgPoint.mk (if size < 2 then 0 else (index : ℚ) / ((size : ℚ) - 1)) percent)

/-- `LineChart.points(data_set, max)`: the positions of all data points,
`_value_point(point.normalized(max), index, len(data_set))` in input order. -/
def lineChartPoints (c : ChartBase) (ds : DataSet) (max : ℚ) : List SvgPoint :=
  ds.data.enum.map fun ip => value_point c (ip.2.normalized max) ip.1 ds.data.length

/-- One slice emitted by `PieChart.render`.  `startCoeff` and `deltaCoeff`
are the start angle and angle delta as coefficients of π; `largeArc` and
`sweep` are the two SVG arc flags of the emitted path. -/
structure PieSlice where
  startCoeff : ℚ
  deltaCoeff : ℚ
  largeArc : ℕ
  sweep : ℕ
deriving DecidableEq

/-- The loop of `PieChart.render`: for each point,
`angle_delta = math.pi * 2 * point.normalized(total)` (here `2 *` the
normalized value, in units of π), the large-arc flag is
`1 if angle_delta > math.pi else 0` (here `1 < deltaCoeff`), the sweep flag
is the literal `1` of the path format string, and the running angle
advances by the delta. -/
def pieSlicesFrom (angle total : ℚ) : List DataPoint → List PieSlice
  | [] => []
  | p :: ps =>
    let d := 2 * p.normalized total
    PieSlice.mk angle d (if 1 < d then 1 else 0) 1 :: pieSlicesFrom (angle + d) total ps

/-- `PieChart.render(data)`: computes `total = data.total()` once and walks
the points in input order starting from the chart's start angle. -/
def pieRenderSlices (angle_start : ℚ) (ds : DataSet) : List PieSlice :=
  pieSlicesFrom angle_start ds.total ds.data

/-- A dynamically-typed Python value, for modelling positional-argument
passing to `ChartBase.__init__`. -/
inductive PyVal where
  | vRect (r : SvgRect)
  | vNum (q : ℚ)
  | vBool (b : Bool)
deriving DecidableEq

/-- Python truthiness of a `PyVal`. -/
def pyTruthy : PyVal → Bool
  | .vRect _ => true
  | .vNum q => q ≠ 0
  | .vBool b => b

/-- A call to `ChartBase.__init__(self, rect, padding, normalized)` with a
list of positional arguments.  The method declares exactly three required
parameters after `self` and none has a default, so Python raises `TypeError`
for any call that does not supply exactly three; the calls occurring in the
module pass a rect, a number and a truthiness-tested value in this order. -/
def chartBase_init (args : List PyVal) : Except PyErr ChartBase :=
  match args with
  | [PyVal.vRect rect, PyVal.vNum padding, nv] =>
    .ok (mkChartBase rect padding (pyTruthy nv))
  | _ => .error .typeError

/-- The state of a `StackedBarChart` instance (were one ever constructed):
the `ChartBase` state plus the `separation` field. -/
structure StackedBarChart where
  base : ChartBase
  separation : ℚ
deriving DecidableEq

/-- `StackedBarChart.__init__(rect, padding=0, normalized=False,
separation=1)`: the source executes
`super(StackedBarChart, self).__init__(rect, normalized)` — only two
positional arguments for the three required parameters of
`ChartBase.__init__`; `padding` is never forwarded. -/
def StackedBarChart.init (rect : SvgRect) (padding : ℚ) (normalized : Bool)
    (separation : ℚ) : Except PyErr StackedBarChart :=
  match chartBase_init [PyVal.vRect rect, PyVal.vBool normalized] with
  | .error e => .error e
  | .ok base => .ok (StackedBarChart.mk base separation)

/-- `StackedBarChart._subrect(index, size)`: the relative rectangle for the
record at the given index.  `width = 1.0 / (size + size * self.separation)`,
`gap_with = width * self.separation`,
`x = gap_with / 2 + (gap_with + width) * index`; for `size == 0` the chart's
own rect is returned. -/
def StackedBarChart.subrect (c : StackedBarChart) (index size : ℕ) : SvgRect :=
  if size = 0 then c.base.rect
  else
    let width := 1 / ((size : ℚ) + (size : ℚ) * c.separation)
    let gap_with := width * c.separation
    SvgRect.mk (gap_with / 2 + (gap_with + width) * (index : ℚ)) 0 width 1

/-- The `accumulate[r][i]` table of `StackedLineChart.render`: the running
total of the values of record `r` over the items before item `i`. -/
def rowPrefix (v : MatrixView) (r i : ℕ) : ℚ :=
  ((List.range i).map fun j => v.valAtD r j).sum

/-- The `local_max` entry for record `r` in `StackedLineChart.render`: the
total of the record across all items. -/
def rowTotal (v : MatrixView) (r : ℕ) : ℚ :=
  rowPrefix v r v.items.length

/-- The `local_max` list of `StackedLineChart.render`, one total per
record. -/
def localMaxList (v : MatrixView) : List ℚ :=
  (List.range v.records.length).map fun r => rowTotal v r

/-- `global_max = max(local_max) if local_max else 0.0` of
`StackedLineChart.render`. -/
def globalMaxQ (v : MatrixView) : ℚ :=
  match localMaxList v with
  | [] => 0
  | x :: xs => xs.foldl max x

/-- The `max_for(record_id)` closure of `StackedLineChart.render`:
`local_max[record_id] if self.normalized else global_max`. -/
def maxFor (c : ChartBase) (v : MatrixView) (r : ℕ) : ℚ :=
  if c.normalized then (localMaxList v).getD r 0 else globalMaxQ v

/-- The per-item body of the `StackedLineChart.render` loop, returning the
chain of absolute points threaded by the emitted path: the `start` point
(normalizing `accumulate[0][it_id]` for record 0), the forward pass through
`value + accumulate[r][it]` for each record, and the reverse pass back
through `accumulate[r][it]`.  Each `normalize` call divides by
`max_for(record_id)` with Python `/`, so it raises `ZeroDivisionError`
whenever that maximum is zero. -/
def slItemPath (c : ChartBase) (v : MatrixView) (it : ℕ) :
    Except PyErr (List SvgPoint) :=
  let nR := v.records.length
  match pydiv (rowPrefix v 0 it) (maxFor c v 0) with
  | .error e => .error e
  | .ok s0 =>
    let start := value_point c s0 0 nR
    match tryMap (fun r =>
        match pydiv (v.valAtD r it + rowPrefix v r it) (maxFor c v r) with
        | .error e => .error e
        | .ok y => .ok (value_point c y r nR)) (List.range nR) with
    | .error e => .error e
    | .ok fwd =>
      match tryMap (fun r =>
          match pydiv (rowPrefix v r it) (maxFor c v r) with
          | .error e => .error e
          | .ok y => .ok (value_point c y r nR)) (List.range nR).reverse with
      | .error e => .error e
      | .ok bwd => .ok (start :: (fwd ++ bwd))

/-- The numeric core of `StackedLineChart.render(data)`: the path point
chains of all items, in the order the source emits them (items iterated in
reverse). -/
def stackedLineRender (c : ChartBase) (v : MatrixView) :
    Except PyErr (List (List SvgPoint)) :=
  tryMap (slItemPath c v) (List.range v.items.length).reverse

/-- Empty metadata, as produced by `MetaData()` with all defaults (except
that the default `label`/`id` are empty strings and `link`/`extra` are
`None`). -/
def md0 : MetaData := MetaData.mk "" "" none none

/-- The pie example of the specification: a `DataSet` of values
`[1, 1, 2]`. -/
def pieExampleSet : DataSet :=
  DataSet.mk md0 [DataPoint.mk md0 1, DataPoint.mk md0 1, DataPoint.mk md0 2]

/-- The line-chart example of the specification: a 3-point `DataSet`
`[0, 5, 10]`. -/
def lineExampleSet : DataSet :=
  DataSet.mk md0 [DataPoint.mk md0 0, DataPoint.mk md0 5, DataPoint.mk md0 10]

/-- The line-chart example chart: rect `(0, 0, 100, 100)` with no padding
(`LineChart.__init__` passes `normalized=False` to the base). -/
def lineExampleChart : ChartBase :=
  mkChartBase (SvgRect.mk 0 0 100 100) 0 false

/-- A 1×1 all-zero data matrix. -/
def zeroMatrix1 : DataMatrix := DataMatrix.mk [md0] [md0] [[0]]

/-- A 2×2 all-zero data matrix. -/
def zeroMatrix2 : DataMatrix :=
  DataMatrix.mk [md0, md0] [md0, md0] [[0, 0], [0, 0]]

/-- A 2×2 matrix with distinct values, for exercising the matrix views. -/
def sampleMatrix : DataMatrix :=
  DataMatrix.mk [md0, md0] [md0, md0] [[1, 2], [3, 4]]

/-- An example stacked-bar chart state (2 records, separation 1), built
directly — `StackedBarChart.init` itself never returns one. -/
def barExampleChart : StackedBarChart :=
  StackedBarChart.mk (mkChartBase (SvgRect.mk 0 0 100 100) 0 false) 1

/-- Claim C9 (confirmed): `DataPoint.normalized` equals 1 when the maximum
it is computed against is 0, equals `value / max` otherwise, and lies in
`[0, 1]` whenever `0 ≤ value ≤ max` with `max > 0`. -/
theorem dataPoint_normalized_spec (p : DataPoint) (m : ℚ) :
    (m = 0 → p.normalized m = 1) ∧
    (m ≠ 0 → p.normalized m = p.value / m) ∧
    (0 ≤ p.value → p.value ≤ m → 0 < m →
      0 ≤ p.normalized m ∧ p.normalized m ≤ 1) := by
  refine ⟨fun h => by simp [DataPoint.normalized, h],
    fun h => by simp [DataPoint.normalized, h],
    fun h0 h1 h2 => ?_⟩
  have hne : m ≠ 0 := ne_of_gt h2
  rw [DataPoint.normalized, if_pos hne]
  exact ⟨div_nonneg h0 h2.le, (div_le_one h2).mpr h1⟩

/-- Witness for C9 at value 3 against maximum 4. -/
theorem dataPoint_normalized_spec_witness :
    DataPoint.normalized (DataPoint.mk md0 3) 4 = (DataPoint.mk md0 3).value / 4 ∧
    (0 ≤ DataPoint.normalized (DataPoint.mk md0 3) 4 ∧
      DataPoint.normalized (DataPoint.mk md0 3) 4 ≤ 1) :=
  ⟨(dataPoint_normalized_spec (DataPoint.mk md0 3) 4).2.1 (by norm_num),
   (dataPoint_normalized_spec (DataPoint.mk md0 3) 4).2.2
     (by norm_num) (by norm_num) (by norm_num)⟩

/-- Counterexample for C3: appending a `DataPoint` with the negative value
−1 does not fail — the point is appended and becomes the last (only)
element, so no `InvalidValue` condition is raised at append time. -/
theorem dataSet_append_cex :
    ((DataSet.mk md0 []).append (DataPoint.mk md0 (-1))).data
      = [DataPoint.mk md0 (-1)] ∧ (-1 : ℚ) < 0 :=
  ⟨rfl, by norm_num⟩

/-- Claim C3 (corrected): `DataSet.append` performs no validation at all —
for every point, negative values included, the append succeeds and the
point becomes the last element of the set. -/
theorem dataSet_append_no_validation (ds : DataSet) (p : DataPoint) :
    (ds.append p).data = ds.data ++ [p] ∧
    (ds.append p).data.getLast? = some p ∧
    (ds.append p).data.length = ds.data.length + 1 := by
  refine ⟨rfl, ?_, by simp [DataSet.append]⟩
  show (ds.data ++ [p]).getLast? = some p
  rw [List.getLast?_append_cons]
  rfl

/-- Claim C4 (confirmed): constructing a `StackedBarChart` always raises
`TypeError`, because `StackedBarChart.__init__` calls `ChartBase.__init__`
with only two positional arguments (the rect, and the normalized flag in the
padding position) where three are required; no instance is ever produced and
the `padding` argument is never applied. -/
theorem stackedBarChart_init_typeError (rect : SvgRect) (padding : ℚ)
    (normalized : Bool) (separation : ℚ) :
    StackedBarChart.init rect padding normalized separation
      = Except.error PyErr.typeError := rfl

/-- Claim C10 (confirmed): `MetaData.wrap_link` returns the fragment
unchanged when the link is `None` or the empty string, and otherwise wraps
it in an `<a>` element whose href is the HTML-escaped link, the fragment
itself inserted unescaped (shown for the default `xlink` namespace, which
gets a `:` appended). -/
theorem wrap_link_spec (md : MetaData) (svg : String) :
    (md.link = none → md.wrap_link svg "xlink" = svg) ∧
    (md.link = some "" → md.wrap_link svg "xlink" = svg) ∧
    (∀ s, md.link = some s → s ≠ "" →
      md.wrap_link svg "xlink"
        = "<a xlink:href=" ++ sq ++ htmlEscape s ++ sq ++ ">" ++ svg ++ "</a>") := by
  refine ⟨fun h => by simp [MetaData.wrap_link, linkTruthy, h],
    fun h => by simp [MetaData.wrap_link, linkTruthy, h],
    fun s hs hne => ?_⟩
  have hb : (s == "") = false := beq_eq_false_iff_ne.mpr hne
  rw [MetaData.wrap_link, hs]
  simp only [linkTruthy, hb, Bool.not_false, Option.getD_some]
  rw [if_neg (by simp), if_pos (by decide)]
  have hh : (("<a " ++ ("xlink" ++ ":")) ++ "href=" : String) = "<a xlink:href=" := rfl
  rw [hh]

/-- Witness for C10: a link containing `&` is escaped in the href while the
fragment is inserted verbatim, and an absent link leaves the fragment
unchanged. -/
theorem wrap_link_spec_witness :
    MetaData.wrap_link (MetaData.mk "" "" (some "x&y") none) "<rect/>" "xlink"
      = "<a xlink:href=" ++ sq ++ htmlEscape "x&y" ++ sq ++ ">" ++ "<rect/>" ++ "</a>" ∧
    MetaData.wrap_link (MetaData.mk "" "" none none) "<rect/>" "xlink" = "<rect/>" :=
  ⟨(wrap_link_spec (MetaData.mk "" "" (some "x&y") none) "<rect/>").2.2 "x&y" rfl
     (by decide),
   (wrap_link_spec (MetaData.mk "" "" none none) "<rect/>").1 rfl⟩

/-- Claim C8 (confirmed): `StackedBarChart._subrect` gives every bar the
relative width `1 / (n + n·s)`, the gap `width · s`, bar `i` the relative
x coordinate `gap/2 + (gap + width)·i`, and `n` bars with their gaps fill
the unit relative width exactly: `n · (gap + width) = 1`. -/
theorem stackedBar_subrect_spec (c : StackedBarChart) (n i : ℕ)
    (hs : 0 ≤ c.separation) (hn : 0 < n) :
    (c.subrect i n).width = 1 / ((n : ℚ) + (n : ℚ) * c.separation) ∧
    (c.subrect i n).x
      = (1 / ((n : ℚ) + (n : ℚ) * c.separation)) * c.separation / 2
        + ((1 / ((n : ℚ) + (n : ℚ) * c.separation)) * c.separation
            + 1 / ((n : ℚ) + (n : ℚ) * c.separation)) * (i : ℚ) ∧
    (c.subrect i n).y = 0 ∧ (c.subrect i n).height = 1 ∧
    (n : ℚ) * ((1 / ((n : ℚ) + (n : ℚ) * c.separation)) * c.separation
        + 1 / ((n : ℚ) + (n : ℚ) * c.separation)) = 1 := by
  have hn0 : n ≠ 0 := Nat.pos_iff_ne_zero.mp hn
  have hnq : (0 : ℚ) < (n : ℚ) := by exact_mod_cast hn
  have hd : (n : ℚ) + (n : ℚ) * c.separation ≠ 0 := by
    have : (0 : ℚ) < (n : ℚ) + (n : ℚ) * c.separation := by nlinarith
    exact ne_of_gt this
  rw [StackedBarChart.subrect, if_neg hn0]
  refine ⟨rfl, rfl, rfl, rfl, ?_⟩
  field_simp
  ring

/-- Witness for C8: the example chart (separation 1) with 2 records, bar 0. -/
theorem stackedBar_subrect_spec_witness :
    (barExampleChart.subrect 0 2).width
      = 1 / ((2 : ℚ) + (2 : ℚ) * barExampleChart.separation) ∧
    (barExampleChart.subrect 0 2).x
      = (1 / ((2 : ℚ) + (2 : ℚ) * barExampleChart.separation)) * barExampleChart.separation / 2
        + ((1 / ((2 : ℚ) + (2 : ℚ) * barExampleChart.separation)) * barExampleChart.separation
            + 1 / ((2 : ℚ) + (2 : ℚ) * barExampleChart.separation)) * (0 : ℚ) ∧
    (barExampleChart.subrect 0 2).y = 0 ∧ (barExampleChart.subrect 0 2).height = 1 ∧
    (2 : ℚ) * ((1 / ((2 : ℚ) + (2 : ℚ) * barExampleChart.separation)) * barExampleChart.separation
        + 1 / ((2 : ℚ) + (2 : ℚ) * barExampleChart.separation)) = 1 := by
  have h := stackedBar_subrect_spec barExampleChart 2 0 (by decide) (by norm_num)
  simpa using h

/-- Claim C6 (confirmed): under the shape invariant, the row-major view
reads `values[r][i]`, the transposed view reads `values[i][r]` (stated here
at the valid index pair `(i, r)` of the transposed view), and transposing
twice is the identity, so the double transpose is observationally equal to
the original view. -/
theorem matrixView_spec (m : DataMatrix) (r i : ℕ) (hshape : m.shapeInv)
    (hr : r < m.rows.length) (hi : i < m.columns.length) :
    (MatrixView.rowV m).valueAt r i = some ((m.values.getD r []).getD i 0) ∧
    (MatrixView.transposedV m).valueAt i r = some ((m.values.getD r []).getD i 0) ∧
    (MatrixView.rowV m).transposed.transposed = MatrixView.rowV m ∧
    (MatrixView.transposedV m).transposed.transposed = MatrixView.transposedV m ∧
    (MatrixView.rowV m).transposed.transposed.records = (MatrixView.rowV m).records ∧
    (MatrixView.rowV m).transposed.transposed.items = (MatrixView.rowV m).items ∧
    (MatrixView.rowV m).transposed.transposed.valueAt r i
      = (MatrixView.rowV m).valueAt r i := by
  have hrv : r < m.values.length := by rw [hshape.1]; exact hr
  have h1 : m.values.get? r = some (m.values.getD r []) := by
    rw [List.getD_eq_get _ _ hrv]
    exact List.get?_eq_get hrv
  have hlen : (m.values.getD r []).length = m.columns.length := by
    rw [List.getD_eq_get _ _ hrv]
    exact hshape.2 _ (List.get_mem m.values r hrv)
  have hiv : i < (m.values.getD r []).length := by rw [hlen]; exact hi
  have h2 : (m.values.getD r []).get? i = some ((m.values.getD r []).getD i 0) := by
    rw [List.getD_eq_get _ _ hiv]
    exact List.get?_eq_get hiv
  have hrow : (MatrixView.rowV m).valueAt r i = some ((m.values.getD r []).getD i 0) := by
    rw [MatrixView.valueAt, h1]
    exact h2
  exact ⟨hrow, by rw [MatrixView.valueAt, h1]; exact h2, rfl, rfl, rfl, rfl, rfl⟩

/-- Witness for C6 on the concrete 2×2 matrix `[[1,2],[3,4]]` at indices
`r = 0`, `i = 1`. -/
theorem matrixView_spec_witness :
    (MatrixView.rowV sampleMatrix).valueAt 0 1
      = some ((sampleMatrix.values.getD 0 []).getD 1 0) ∧
    (MatrixView.transposedV sampleMatrix).valueAt 1 0
      = some ((sampleMatrix.values.getD 0 []).getD 1 0) ∧
    (MatrixView.rowV sampleMatrix).transposed.transposed = MatrixView.rowV sampleMatrix ∧
    (MatrixView.transposedV sampleMatrix).transposed.transposed
      = MatrixView.transposedV sampleMatrix ∧
    (MatrixView.rowV sampleMatrix).transposed.transposed.records
      = (MatrixView.rowV sampleMatrix).records ∧
    (MatrixView.rowV sampleMatrix).transposed.transposed.items
      = (MatrixView.rowV sampleMatrix).items ∧
    (MatrixView.rowV sampleMatrix).transposed.transposed.valueAt 0 1
      = (MatrixView.rowV sampleMatrix).valueAt 0 1 :=
  matrixView_spec sampleMatrix 0 1 (by decide) (by decide) (by decide)

/-- Counterexample for C2: a `DataSet` with one zero-valued point has total
0, yet `PieChart.render` gives its point the angle delta 2π (delta
coefficient 2 in units of π), not 0 — `DataPoint.normalized` falls back to
1, not 0, when the total is 0. -/
theorem pieChart_zeroTotal_cex :
    (DataSet.mk md0 [DataPoint.mk md0 0]).total = 0 ∧
    (pieRenderSlices 0 (DataSet.mk md0 [DataPoint.mk md0 0])).map PieSlice.deltaCoeff
      = [2] ∧ (2 : ℚ) ≠ 0 :=
  ⟨by norm_num [DataSet.total],
   by norm_num [pieRenderSlices, pieSlicesFrom, DataPoint.normalized, DataSet.total],
   by norm_num⟩

/-- For a zero total every slice delta is `2 * normalized = 2 * 1` (in units
of π), whatever the start angle. -/
theorem pieSlicesFrom_deltas_total_zero (pts : List DataPoint) :
    ∀ angle : ℚ, (pieSlicesFrom angle 0 pts).map PieSlice.deltaCoeff
      = List.replicate pts.length 2 := by
  induction pts with
  | nil => intro angle; rfl
  | cons p ps ih =>
    intro angle
    simp [pieSlicesFrom, DataPoint.normalized, ih, List.replicate_succ]

/-- Claim C2 (corrected): for every `DataSet` whose total is 0,
`PieChart.render` gives every point a slice angle delta of 2π — a full
turn, not the 0 the claim states — and raises no error (the computation is
a total function: the zero division is guarded inside
`DataPoint.normalized`). -/
theorem pieChart_zero_total_full_turns (a : ℚ) (ds : DataSet)
    (h : ds.total = 0) :
    (pieRenderSlices a ds).map PieSlice.deltaCoeff
      = List.replicate ds.data.length 2 := by
  rw [pieRenderSlices, h]
  exact pieSlicesFrom_deltas_total_zero ds.data a

/-- Witness for C2 on a two-point all-zero dataset. -/
theorem pieChart_zero_total_full_turns_witness :
    (pieRenderSlices 0
        (DataSet.mk md0 [DataPoint.mk md0 0, DataPoint.mk md0 0])).map
      PieSlice.deltaCoeff = List.replicate 2 2 := by
  have h := pieChart_zero_total_full_turns 0
    (DataSet.mk md0 [DataPoint.mk md0 0, DataPoint.mk md0 0]) (by norm_num [DataSet.total])
  simpa using h

/-- Index-wise description of the `PieChart.render` loop when the total is
nonzero: the i-th slice starts at the accumulated angle, has delta
`2·vᵢ/total` (in units of π), large-arc flag `1` exactly for a delta above
π, and sweep flag `1`. -/
theorem pieSlicesFrom_get?_spec (total : ℚ) (h : total ≠ 0) (pts : List DataPoint) :
    ∀ (angle : ℚ) (i : ℕ), i < pts.length →
    (pieSlicesFrom angle total pts).get? i
      = some (PieSlice.mk
          (angle + 2 * ((pts.take i).map DataPoint.value).sum / total)
          (2 * ((pts.map DataPoint.value).getD i 0) / total)
          (if 1 < 2 * ((pts.map DataPoint.value).getD i 0) / total then 1 else 0)
          1) := by
  induction pts with
  | nil => intro angle i hi; simp at hi
  | cons p ps ih =>
    intro angle i hi
    cases i with
    | zero =>
      simp only [pieSlicesFrom, List.get?, List.take_zero, List.map_nil,
        List.sum_nil, List.map_cons, List.getD_cons_zero]
      rw [DataPoint.normalized, if_pos h]
      simp [mul_div_assoc]
    | succ j =>
      have hj : j < ps.length := by simpa using hi
      have step := ih (angle + 2 * p.normalized total) j hj
      simp only [pieSlicesFrom, List.get?] at step ⊢
      rw [step]
      simp only [List.take_succ_cons, List.map_cons, List.sum_cons,
        List.getD_cons_succ, Option.some.injEq, PieSlice.mk.injEq,
        and_true, true_and]
      rw [DataPoint.normalized, if_pos h]
      field_simp
      ring

/-- Claim C5 (confirmed): with a nonzero total, `PieChart.render` walks the
points in input order from the start angle, gives point `i` the delta
`2π·vᵢ/total`, sets the large-arc flag to 1 exactly when the delta exceeds
π and the sweep flag always to 1; for values `[1,1,2]` (total 4) the deltas
are `[π/2, π/2, π]` in order and sum to exactly 2π.  Angles are coefficients
of π: delta `2·v/total` stands for `2π·v/total`, the flag threshold 1 for
π, the delta list `[1/2, 1/2, 1]` for `[π/2, π/2, π]` and the sum 2 for
2π. -/
theorem pieChart_slice_geometry (a : ℚ) (ds : DataSet) (h : 0 < ds.total)
    (i : ℕ) (hi : i < ds.data.length) :
    ((pieRenderSlices a ds).get? i
      = some (PieSlice.mk
          (a + 2 * ((ds.data.take i).map DataPoint.value).sum / ds.total)
          (2 * ((ds.data.map DataPoint.value).getD i 0) / ds.total)
          (if 1 < 2 * ((ds.data.map DataPoint.value).getD i 0) / ds.total
            then 1 else 0)
          1)) ∧
    (pieRenderSlices 0 pieExampleSet).map PieSlice.deltaCoeff = [1/2, 1/2, 1] ∧
    ((pieRenderSlices 0 pieExampleSet).map PieSlice.deltaCoeff).sum = 2 := by
  refine ⟨pieSlicesFrom_get?_spec ds.total (ne_of_gt h) ds.data a i hi, ?_, ?_⟩
  · norm_num [pieRenderSlices, pieSlicesFrom, DataPoint.normalized,
      DataSet.total, pieExampleSet]
  · norm_num [pieRenderSlices, pieSlicesFrom, DataPoint.normalized,
      DataSet.total, pieExampleSet]

/-- Witness for C5 on the `[1, 1, 2]` example at slice index 2. -/
theorem pieChart_slice_geometry_witness :
    ((pieRenderSlices 0 pieExampleSet).get? 2
      = some (PieSlice.mk
          (0 + 2 * ((pieExampleSet.data.take 2).map DataPoint.value).sum
            / pieExampleSet.total)
          (2 * ((pieExampleSet.data.map DataPoint.value).getD 2 0)
            / pieExampleSet.total)
          (if 1 < 2 * ((pieExampleSet.data.map DataPoint.value).getD 2 0)
              / pieExampleSet.total then 1 else 0)
          1)) ∧
    (pieRenderSlices 0 pieExampleSet).map PieSlice.deltaCoeff = [1/2, 1/2, 1] ∧
    ((pieRenderSlices 0 pieExampleSet).map PieSlice.deltaCoeff).sum = 2 :=
  pieChart_slice_geometry 0 pieExampleSet
    (by norm_num [DataSet.total, pieExampleSet]) 2 (by norm_num [pieExampleSet])

/-- Claim C7 (confirmed): `LineChart` gives point `i` of an `n`-point series
the relative x position `i/(n−1)` (0 when `n < 2`) and the relative y
position `value/seriesMax` (for a nonzero series maximum), mapped through
the y-flip `absY = rect.y + rect.height · (1 − relY)`; the 3-point set
`[0, 5, 10]` (max 10) in rect `(0, 0, 100, 100)` with no padding yields the
absolute points `(0, 100), (50, 50), (100, 0)`. -/
theorem lineChart_value_points (c : ChartBase) (ds : DataSet) (m : ℚ)
    (hm : m ≠ 0) (i : ℕ) (hi : i < ds.data.length) :
    ((lineChartPoints c ds m).get? i
      = some (SvgPoint.mk
          (c.rect.x + c.rect.width *
            (if ds.data.length < 2 then 0
              else (i : ℚ) / ((ds.data.length : ℚ) - 1)))
          (c.rect.y + c.rect.height *
            (1 - ((ds.data.map DataPoint.value).getD i 0) / m)))) ∧
    lineChartPoints lineExampleChart lineExampleSet 10
      = [SvgPoint.mk 0 100, SvgPoint.mk 50 50, SvgPoint.mk 100 0] ∧
    lineExampleSet.max_value = 10 := by
  refine ⟨?_, ?_, by norm_num [DataSet.max_value, lineExampleSet]⟩
  · have h1 : ds.data.get? i = some (ds.data.get ⟨i, hi⟩) := List.get?_eq_get hi
    have h2 : (ds.data.map DataPoint.value).getD i 0 = (ds.data.get ⟨i, hi⟩).value := by
      have him : i < (ds.data.map DataPoint.value).length := by simpa using hi
      rw [List.getD_eq_get _ _ him, List.get_map]
    rw [lineChartPoints, List.get?_map, List.get?_enum, h1, h2]
    simp only [Option.map_some']
    rw [value_point, ChartBase.point_rel2abs, DataPoint.normalized, if_pos hm]
  · norm_num [lineChartPoints, lineExampleChart, lineExampleSet, List.enum,
      value_point, ChartBase.point_rel2abs, DataPoint.normalized, mkChartBase]

/-- Witness for C7 on the `[0, 5, 10]` example at point index 1. -/
theorem lineChart_value_points_witness :
    ((lineChartPoints lineExampleChart lineExampleSet 10).get? 1
      = some (SvgPoint.mk
          (lineExampleChart.rect.x + lineExampleChart.rect.width *
            (if lineExampleSet.data.length < 2 then 0
              else (1 : ℚ) / ((lineExampleSet.data.length : ℚ) - 1)))
          (lineExampleChart.rect.y + lineExampleChart.rect.height *
            (1 - ((lineExampleSet.data.map DataPoint.value).getD 1 0) / 10)))) ∧
    lineChartPoints lineExampleChart lineExampleSet 10
      = [SvgPoint.mk 0 100, SvgPoint.mk 50 50, SvgPoint.mk 100 0] ∧
    lineExampleSet.max_value = 10 :=
  lineChart_value_points lineExampleChart lineExampleSet 10 (by norm_num) 1
    (by norm_num [lineExampleSet])

/-- A 0-defaulted lookup in an all-zero list yields 0. -/
theorem getD_replicate_zero : ∀ (n r : ℕ), (List.replicate n (0 : ℚ)).getD r 0 = 0 := by
  intro n
  induction n with
  | zero => intro r; rfl
  | succ k ih =>
    intro r
    cases r with
    | zero => rfl
    | succ j => simpa [List.replicate_succ] using ih j

/-- Folding `max` over an all-zero list starting from 0 stays 0. -/
theorem foldl_max_replicate_zero : ∀ n : ℕ, (List.replicate n (0 : ℚ)).foldl max 0 = 0 := by
  intro n
  induction n with
  | zero => rfl
  | succ k ih => simp [List.replicate_succ, ih]

/-- On an all-zero view every record total is 0. -/
theorem rowTotal_of_all_zero (v : MatrixView) (hz : ∀ r i, v.valAtD r i = 0)
    (r : ℕ) : rowTotal v r = 0 := by
  simp [rowTotal, rowPrefix, hz]

/-- On an all-zero view the `local_max` list is all zeros. -/
theorem localMaxList_of_all_zero (v : MatrixView) (hz : ∀ r i, v.valAtD r i = 0) :
    localMaxList v = List.replicate v.records.length 0 := by
  rw [localMaxList]
  rw [List.map_congr_left fun r _ => rowTotal_of_all_zero v hz r]
  rw [List.map_const', List.length_range]

/-- On an all-zero view `global_max` is 0. -/
theorem globalMaxQ_of_all_zero (v : MatrixView) (hz : ∀ r i, v.valAtD r i = 0) :
    globalMaxQ v = 0 := by
  rw [globalMaxQ, localMaxList_of_all_zero v hz]
  cases h : v.records.length with
  | zero => rfl
  | succ k => simp [List.replicate_succ, foldl_max_replicate_zero]

/-- On an all-zero view `max_for(record_id)` is 0 whichever normalization
policy is active. -/
theorem maxFor_of_all_zero (c : ChartBase) (v : MatrixView)
    (hz : ∀ r i, v.valAtD r i = 0) (r : ℕ) : maxFor c v r = 0 := by
  rw [maxFor, localMaxList_of_all_zero v hz, globalMaxQ_of_all_zero v hz]
  cases hb : c.normalized <;> simp [getD_replicate_zero]

/-- Counterexample for C1: `StackedLineChart.render` on a 1×1 matrix whose
only value is 0 (empty in the all-zero-totals sense the claim covers)
raises `ZeroDivisionError` instead of degrading to an empty fragment. -/
theorem stackedLine_zero_matrix_cex :
    stackedLineRender (mkChartBase (SvgRect.mk 0 0 100 100) 0 false)
      (MatrixView.rowV zeroMatrix1) = Except.error PyErr.zeroDivisionError := by
  have hz : ∀ r i, (MatrixView.rowV zeroMatrix1).valAtD r i = 0 := by
    intro r i
    rcases r with _ | r <;> rcases i with _ | i <;> rfl
  have hm : maxFor (mkChartBase (SvgRect.mk 0 0 100 100) 0 false)
      (MatrixView.rowV zeroMatrix1) 0 = 0 :=
    maxFor_of_all_zero _ _ hz 0
  have hitem : slItemPath (mkChartBase (SvgRect.mk 0 0 100 100) 0 false)
      (MatrixView.rowV zeroMatrix1) 0 = Except.error PyErr.zeroDivisionError := by
    rw [slItemPath, hm, pydiv, if_pos rfl]
  rw [stackedLineRender]
  show tryMap _ [0] = _
  rw [tryMap, hitem]

/-- Claim C1 (corrected): after validation, rendering is not free of error
paths.  `PieChart.render` is a total function that yields an empty fragment
for an empty record list (one slice per point, hence none for no points);
but `StackedLineChart.render` raises `ZeroDivisionError` on every view with
nonempty records and items whose values are all zero (all-zero totals), and
by C4 a `StackedBarChart` cannot even be constructed. -/
theorem render_error_paths (c : ChartBase) (v : MatrixView) (a : ℚ)
    (ds : DataSet) (hR : v.records ≠ []) (hI : v.items ≠ [])
    (hz : ∀ r i, v.valAtD r i = 0) (hempty : ds.data = []) :
    (pieRenderSlices a ds).length = ds.data.length ∧
    pieRenderSlices a ds = [] ∧
    stackedLineRender c v = Except.error PyErr.zeroDivisionError := by
  refine ⟨?_, by simp [pieRenderSlices, hempty, pieSlicesFrom], ?_⟩
  · rw [hempty]
    simp [pieRenderSlices, hempty, pieSlicesFrom]
  · obtain ⟨k, hk⟩ : ∃ k, v.items.length = k + 1 := by
      cases hitems : v.items with
      | nil => exact absurd hitems hI
      | cons x xs => exact ⟨xs.length, by simp [hitems]⟩
    have hitem : slItemPath c v k = Except.error PyErr.zeroDivisionError := by
      rw [slItemPath, maxFor_of_all_zero c v hz 0, pydiv, if_pos rfl]
    rw [stackedLineRender, hk, List.range_succ, List.reverse_append]
    simp only [List.reverse_cons, List.reverse_nil, List.nil_append,
      List.singleton_append]
    rw [tryMap, hitem]

/-- Witness for C1 on an empty dataset and the all-zero 2×2 matrix. -/
theorem render_error_paths_witness :
    (pieRenderSlices 0 (DataSet.mk md0 [])).length = (DataSet.mk md0 []).data.length ∧
    pieRenderSlices 0 (DataSet.mk md0 []) = [] ∧
    stackedLineRender lineExampleChart (MatrixView.rowV zeroMatrix2)
      = Except.error PyErr.zeroDivisionError :=
  render_error_paths lineExampleChart (MatrixView.rowV zeroMatrix2) 0
    (DataSet.mk md0 []) (by decide) (by decide)
    (by intro r i; rcases r with _ | _ | r <;> rcases i with _ | _ | i <;> rfl) rfl

end Charts
